import Mathlib

/-!
Shallow embedding of the session-routing and multiplexing core of
guacamole-server (src/libguac/client.c and src/guacd/connection.c),
with theorems settling the specification's claims about it.

Machine integers are modelled as `Int`/`Nat` (no value here approaches
overflow), NULL-able pointers as `Option`, and externally visible calls
(handlers, logging, fd transfer) as explicit event traces.
-/

/-- Modelled from the spec: the recycling integer index-pool allocator
(`pool.c` is not under `src/`; only its callers in `client.c` are).
Spec §4.4: `allocate()` prefers a previously released index if the
free-list is non-empty, otherwise takes and advances the monotonic
counter; `release(index)` marks the index reusable and decrements the
active count. -/
structure guac_pool where
  active : Nat
  __next_value : Int
  __free_list : List Int
deriving DecidableEq

/-- Modelled from the spec: pool construction; the pool starts with an
empty free-list, a zero counter and zero active allocations. -/
def guac_pool_alloc (_size : Nat) : guac_pool :=
  { active := 0, __next_value := 0, __free_list := [] }

/-- Modelled from the spec: `allocate()`; returns the drawn value and
the updated pool. -/
def guac_pool_next_int (pool : guac_pool) : Int × guac_pool :=
  match pool.__free_list with
  | v :: rest =>
      (v, { active := pool.active + 1, __next_value := pool.__next_value,
            __free_list := rest })
  | [] =>
      (pool.__next_value,
       { active := pool.active + 1, __next_value := pool.__next_value + 1,
         __free_list := [] })

/-- Modelled from the spec: `release(index)`; the released value joins
the free-list (FIFO) and the active count decreases. -/
def guac_pool_free_int (pool : guac_pool) (value : Int) : guac_pool :=
  { active := pool.active - 1, __next_value := pool.__next_value,
    __free_list := pool.__free_list ++ [value] }

/-- Embeds `guac_layer` (layer.h / client.c): a surface handle is just
its signed index. -/
structure guac_layer where
  index : Int
deriving DecidableEq

/-- Embeds `guac_stream` (stream.h / client.c): index plus opaque data
and the ack/blob/end handlers, each NULL-able. -/
structure guac_stream where
  index : Int
  data : Option Nat
  ack_handler : Option Nat
  blob_handler : Option Nat
  end_handler : Option Nat
deriving DecidableEq

/-- Modelled from the spec: the fixed stream-table capacity
`GUAC_CLIENT_MAX_STREAMS` (client.h is not under `src/`; spec §6 calls
it "a configured maximum concurrent streams per session"). -/
def GUAC_CLIENT_MAX_STREAMS : Nat := 64

/-- Modelled from the spec: the sentinel index marking a stream-table
slot closed (client.h is not under `src/`). -/
def GUAC_CLIENT_CLOSED_STREAM_INDEX : Int := -1

/-- Modelled from the spec: initial size hint for the layer and buffer
pools (client.h is not under `src/`); the pool model ignores it. -/
def GUAC_BUFFER_POOL_INITIAL_SIZE : Nat := 1024

/-- Embeds the lifecycle states `GUAC_CLIENT_RUNNING` /
`GUAC_CLIENT_STOPPING` / `GUAC_CLIENT_STOPPED` (client.h). -/
inductive guac_client_state where
  | GUAC_CLIENT_RUNNING
  | GUAC_CLIENT_STOPPING
  | GUAC_CLIENT_STOPPED
deriving DecidableEq

/-- Embeds `guac_user` (user.h / client.c) for the purposes of the user
list: an identity and whether the user's own `leave_handler` is
non-NULL. The prev/next pointers of the C doubly-linked list are
represented by the user's position in the client's list. -/
structure guac_user where
  uid : Nat
  leave_handler : Bool
deriving DecidableEq

/-- Embeds the fields of `guac_client` (client.h) that client.c reads
or writes: lifecycle state, the three pools, the output stream table,
the user list (head first), and whether the client-level
leave/free/log-error handlers are non-NULL. -/
structure guac_client where
  state : guac_client_state
  __buffer_pool : guac_pool
  __layer_pool : guac_pool
  __stream_pool : guac_pool
  __output_streams : List guac_stream
  __users : List guac_user
  leave_handler : Bool
  free_handler : Bool
  log_error_handler : Bool
deriving DecidableEq

/-- Embeds `guac_client_alloc` (client.c:217): state starts RUNNING,
buffer/layer pools sized `GUAC_BUFFER_POOL_INITIAL_SIZE`, stream pool
sized 0, every stream-table slot pre-marked closed, no users, all
optional handlers NULL (the C `memset` to zero). -/
def guac_client_alloc : guac_client :=
  { state := guac_client_state.GUAC_CLIENT_RUNNING,
    __buffer_pool := guac_pool_alloc GUAC_BUFFER_POOL_INITIAL_SIZE,
    __layer_pool := guac_pool_alloc GUAC_BUFFER_POOL_INITIAL_SIZE,
    __stream_pool := guac_pool_alloc 0,
    __output_streams :=
      List.replicate GUAC_CLIENT_MAX_STREAMS
        { index := GUAC_CLIENT_CLOSED_STREAM_INDEX, data := none,
          ack_handler := none, blob_handler := none, end_handler := none },
    __users := [],
    leave_handler := false,
    free_handler := false,
    log_error_handler := false }

/-- Embeds `guac_client_alloc_layer` (client.c:85): index is the drawn
pool value plus one. -/
def guac_client_alloc_layer (client : guac_client) : guac_layer × guac_client :=
  let r := guac_pool_next_int client.__layer_pool
  ({ index := r.1 + 1 }, { client with __layer_pool := r.2 })

/-- Embeds `guac_client_alloc_buffer` (client.c:95): index is the
negated drawn pool value minus one. -/
def guac_client_alloc_buffer (client : guac_client) : guac_layer × guac_client :=
  let r := guac_pool_next_int client.__buffer_pool
  ({ index := -r.1 - 1 }, { client with __buffer_pool := r.2 })

/-- Embeds `guac_client_free_buffer` (client.c:105): releases
`-layer->index - 1` to the buffer pool. -/
def guac_client_free_buffer (client : guac_client) (layer : guac_layer) : guac_client :=
  { client with
    __buffer_pool := guac_pool_free_int client.__buffer_pool (-layer.index - 1) }

/-- Embeds `guac_client_free_layer` (client.c:115): releases
`layer->index` — the handle's index itself, not the pool value it was
derived from — to the layer pool. -/
def guac_client_free_layer (client : guac_client) (layer : guac_layer) : guac_client :=
  { client with
    __layer_pool := guac_pool_free_int client.__layer_pool layer.index }

/-- Claim C1: counterexample to the layer half of the round-trip claim. On a
fresh client the first layer is derived from pool value 0 and carries
index 1, but `guac_client_free_layer` hands the pool back 1 (the index),
not 0 (the pool value), so the alloc-then-free sequence changes the
pool's index state: the next draw yields 1 instead of 0. The buffer
half, by contrast, does invert its mapping and releases exactly the
original pool value 0. -/
theorem C1_layer_free_releases_index_not_pool_value :
    (guac_client_alloc_layer guac_client_alloc).1.index = 1 ∧
    ((guac_client_alloc_layer guac_client_alloc).1.index - 1 = 0) ∧
    (guac_client_free_layer (guac_client_alloc_layer guac_client_alloc).2
        (guac_client_alloc_layer guac_client_alloc).1).__layer_pool.__free_list = [1] ∧
    (guac_pool_next_int
      (guac_client_free_layer (guac_client_alloc_layer guac_client_alloc).2
        (guac_client_alloc_layer guac_client_alloc).1).__layer_pool).1 = 1 ∧
    (guac_client_free_buffer (guac_client_alloc_buffer guac_client_alloc).2
        (guac_client_alloc_buffer guac_client_alloc).1).__buffer_pool.__free_list = [0] := by
  decide

/-- Embeds `guac_client_alloc_stream` (client.c:125): refuse (NULL)
exactly when the stream pool's active count equals
`GUAC_CLIENT_MAX_STREAMS`; otherwise draw a pool value as the stream
index, reset the slot's data and ack/blob/end handlers, and hand out
that slot of the pre-allocated output stream table. -/
def guac_client_alloc_stream (client : guac_client) :
    Option (guac_stream × guac_client) :=
  if client.__stream_pool.active = GUAC_CLIENT_MAX_STREAMS then none
  else
    let r := guac_pool_next_int client.__stream_pool
    let s : guac_stream :=
      { index := r.1, data := none, ack_handler := none,
        blob_handler := none, end_handler := none }
    some (s, { client with
               __stream_pool := r.2,
               __output_streams := client.__output_streams.set r.1.toNat s })

/-- Invariant of the stream pool under disciplined use (alloc refuses
at the maximum, each release returns a previously handed-out index):
free-list entries are in range, the counter is non-negative, the
counter equals the active count whenever the free-list is empty, and
the active count never exceeds the maximum. -/
def streamPoolInv (p : guac_pool) : Prop :=
  (∀ v ∈ p.__free_list, 0 ≤ v ∧ v < (GUAC_CLIENT_MAX_STREAMS : Int)) ∧
  0 ≤ p.__next_value ∧
  (p.__free_list = [] → p.__next_value = (p.active : Int)) ∧
  p.active ≤ GUAC_CLIENT_MAX_STREAMS

instance (p : guac_pool) : Decidable (streamPoolInv p) := by
  unfold streamPoolInv; infer_instance

/-- Claim C4: `guac_client_alloc_stream` fails exactly when the stream pool's
active count equals `GUAC_CLIENT_MAX_STREAMS`, and on success returns a
stream whose index lies in `[0, GUAC_CLIENT_MAX_STREAMS)`, with data
and ack/blob/end handlers reset to NULL, stored in the fixed-size
output stream table at that index. -/
theorem C4_alloc_stream_exhaustion (c : guac_client)
    (h : streamPoolInv c.__stream_pool) :
    (guac_client_alloc_stream c = none ↔
      c.__stream_pool.active = GUAC_CLIENT_MAX_STREAMS) ∧
    (∀ s c', guac_client_alloc_stream c = some (s, c') →
      0 ≤ s.index ∧ s.index < (GUAC_CLIENT_MAX_STREAMS : Int) ∧
      s.data = none ∧ s.ack_handler = none ∧ s.blob_handler = none ∧
      s.end_handler = none ∧
      c'.__output_streams = c.__output_streams.set s.index.toNat s ∧
      c'.__output_streams.length = c.__output_streams.length) := by
  obtain ⟨hrange, hnn, hempty, hle⟩ := h
  by_cases hfull : c.__stream_pool.active = GUAC_CLIENT_MAX_STREAMS
  · constructor
    · simp [guac_client_alloc_stream, hfull]
    · intro s c' hs
      simp [guac_client_alloc_stream, hfull] at hs
  · constructor
    · simp [guac_client_alloc_stream, hfull]
    · intro s c' hs
      simp only [guac_client_alloc_stream, hfull, if_false] at hs
      cases hfl : c.__stream_pool.__free_list with
      | nil =>
          have hnv : c.__stream_pool.__next_value =
              (c.__stream_pool.active : Int) := hempty hfl
          simp only [guac_pool_next_int, hfl, Option.some.injEq,
            Prod.mk.injEq] at hs
          obtain ⟨hs1, hs2⟩ := hs
          subst hs1
          refine ⟨by simp [hnv], ?_, rfl, rfl, rfl, rfl, ?_, by simp [← hs2]⟩
          · simp only [hnv]
            exact_mod_cast lt_of_le_of_ne hle hfull
          · rw [← hs2]
      | cons v rest =>
          have hv := hrange v (by simp [hfl])
          simp only [guac_pool_next_int, hfl, Option.some.injEq,
            Prod.mk.injEq] at hs
          obtain ⟨hs1, hs2⟩ := hs
          subst hs1
          exact ⟨hv.1, hv.2, rfl, rfl, rfl, rfl, by rw [← hs2],
            by simp [← hs2]⟩

/-- Claim C4 witness: the freshly allocated client satisfies the invariant
and the theorem's conclusion holds for it concretely. -/
theorem C4_alloc_stream_exhaustion_witness :
    streamPoolInv guac_client_alloc.__stream_pool ∧
    ((guac_client_alloc_stream guac_client_alloc = none ↔
      guac_client_alloc.__stream_pool.active = GUAC_CLIENT_MAX_STREAMS) ∧
    (∀ s c', guac_client_alloc_stream guac_client_alloc = some (s, c') →
      0 ≤ s.index ∧ s.index < (GUAC_CLIENT_MAX_STREAMS : Int) ∧
      s.data = none ∧ s.ack_handler = none ∧ s.blob_handler = none ∧
      s.end_handler = none ∧
      c'.__output_streams = guac_client_alloc.__output_streams.set s.index.toNat s ∧
      c'.__output_streams.length = guac_client_alloc.__output_streams.length)) :=
  ⟨by decide, C4_alloc_stream_exhaustion guac_client_alloc (by decide)⟩

/-- Externally visible calls made during user removal and session
teardown (client.c): a leave-handler invocation (`own` records whether
the user's own handler was used rather than the client's), the unlink
of a user from the list, the release of the user's socket, the
client-level free-handler invocation, and the release of the pools,
stream tables and lock at the end of `guac_client_free`. -/
inductive CEvent where
  | leave (uid : Nat) (own : Bool)
  | unlink (uid : Nat)
  | socket_free (uid : Nat)
  | free_handler_call
  | pool_release
deriving DecidableEq

/-- The leave-handler calls `guac_client_remove_user` (client.c:429)
makes for one user before touching the list: the user's own leave
handler if set, else the client's leave handler if set, else none. -/
def remove_user_leave_events (clientLeave : Bool) (u : guac_user) : List CEvent :=
  if u.leave_handler then [CEvent.leave u.uid true]
  else if clientLeave then [CEvent.leave u.uid false]
  else []

/-- Embeds `guac_client_remove_user` (client.c:429): invoke the leave
handler (own, else client's), then unlink the user under the lock,
then free the user's socket and the user. Returns the updated client
and the trace of calls made. -/
def guac_client_remove_user (client : guac_client) (u : guac_user) :
    guac_client × List CEvent :=
  ({ client with
     __users := client.__users.eraseP (fun w => w.uid == u.uid) },
   remove_user_leave_events client.leave_handler u ++
     [CEvent.unlink u.uid, CEvent.socket_free u.uid])

/-- The trace of the head-removal loop of `guac_client_free`
(client.c:283): remove the head user, as `guac_client_remove_user`
does, until the list is empty. -/
def drain_users (clientLeave : Bool) : List guac_user → List CEvent
  | [] => []
  | u :: rest =>
      remove_user_leave_events clientLeave u ++
        [CEvent.unlink u.uid, CEvent.socket_free u.uid] ++
        drain_users clientLeave rest

/-- Embeds `guac_client_free` (client.c:280) as its trace of calls:
remove users from the head until the list is empty, then call the
client's free handler if set, then release the pools, the stream
tables and the lock. -/
def guac_client_free (client : guac_client) : List CEvent :=
  drain_users client.leave_handler client.__users ++
    (if client.free_handler then [CEvent.free_handler_call] else []) ++
    [CEvent.pool_release]

/-- Recognizes a leave-handler invocation event. -/
def isLeave : CEvent → Bool
  | CEvent.leave _ _ => true
  | _ => false

/-- A single step of the `guac_client_free` loop agrees with
`guac_client_remove_user` applied to the head user: the head user's
removal leaves the tail and emits exactly the first block of the drain
trace. -/
theorem remove_user_head_step (c : guac_client) (u : guac_user)
    (rest : List guac_user) (h : c.__users = u :: rest) :
    (guac_client_remove_user c u).1.__users = rest ∧
    (guac_client_remove_user c u).2 =
      remove_user_leave_events c.leave_handler u ++
        [CEvent.unlink u.uid, CEvent.socket_free u.uid] := by
  refine ⟨?_, rfl⟩
  simp [guac_client_remove_user, h, List.eraseP_cons]

/-- The drain trace is the concatenation of per-user blocks, with the
`own` flag of each leave event recording whether the user's own leave
handler was used. -/
theorem drain_users_eq_flatMap (us : List guac_user) :
    drain_users true us =
      us.flatMap (fun u => [CEvent.leave u.uid u.leave_handler,
        CEvent.unlink u.uid, CEvent.socket_free u.uid]) := by
  induction us with
  | nil => rfl
  | cons u rest ih =>
      cases h : u.leave_handler <;>
        simp [drain_users, remove_user_leave_events, h, ih]

/-- The drain trace contains one leave event per user. -/
theorem drain_users_countP_leave (us : List guac_user) :
    (drain_users true us).countP isLeave = us.length := by
  induction us with
  | nil => rfl
  | cons u rest ih =>
      cases h : u.leave_handler <;>
        simp [drain_users, remove_user_leave_events, h,
          List.countP_append, List.countP_cons, isLeave, ih]

/-- The drain trace never contains a free-handler call. -/
theorem drain_users_count_free (us : List guac_user) :
    (drain_users true us).count CEvent.free_handler_call = 0 := by
  induction us with
  | nil => rfl
  | cons u rest ih =>
      cases h : u.leave_handler <;>
        simp [drain_users, remove_user_leave_events, h,
          List.count_append, List.count_cons, ih, List.count_eq_zero]

/-- Claim C5: on a session whose client-level leave and free handlers are
set, `guac_client_free` first drains the users head-first — for each of
the N users one leave-handler call (the user's own handler when set,
else the session's), made before that user's unlink and socket
release — then, only once the list is empty, makes exactly one
free-handler call, and releases the pools, stream tables and lock
last. -/
theorem C5_free_teardown_order (c : guac_client)
    (hl : c.leave_handler = true) (hf : c.free_handler = true) :
    guac_client_free c =
      c.__users.flatMap (fun u => [CEvent.leave u.uid u.leave_handler,
        CEvent.unlink u.uid, CEvent.socket_free u.uid]) ++
        [CEvent.free_handler_call, CEvent.pool_release] ∧
    (guac_client_free c).countP isLeave = c.__users.length ∧
    (guac_client_free c).count CEvent.free_handler_call = 1 := by
  have h1 : guac_client_free c =
      drain_users true c.__users ++
        [CEvent.free_handler_call, CEvent.pool_release] := by
    simp [guac_client_free, hl, hf]
  refine ⟨?_, ?_, ?_⟩
  · rw [h1, drain_users_eq_flatMap]
  · rw [h1]
    simp [List.countP_append, drain_users_countP_leave, isLeave]
  · rw [h1]
    simp [List.count_append, drain_users_count_free]

/-- Claim C5 witness: concrete two-user session, first user with its own
leave handler, second falling back to the session's. -/
theorem C5_free_teardown_order_witness :
    ({ guac_client_alloc with
       __users := [{ uid := 1, leave_handler := true },
                   { uid := 2, leave_handler := false }],
       leave_handler := true, free_handler := true } : guac_client).leave_handler = true ∧
    ({ guac_client_alloc with
       __users := [{ uid := 1, leave_handler := true },
                   { uid := 2, leave_handler := false }],
       leave_handler := true, free_handler := true } : guac_client).free_handler = true ∧
    (guac_client_free { guac_client_alloc with
       __users := [{ uid := 1, leave_handler := true },
                   { uid := 2, leave_handler := false }],
       leave_handler := true, free_handler := true } =
      [CEvent.leave 1 true, CEvent.unlink 1, CEvent.socket_free 1,
       CEvent.leave 2 false, CEvent.unlink 2, CEvent.socket_free 2,
       CEvent.free_handler_call, CEvent.pool_release]) := by
  refine ⟨rfl, rfl, ?_⟩
  have h := C5_free_teardown_order { guac_client_alloc with
       __users := [{ uid := 1, leave_handler := true },
                   { uid := 2, leave_handler := false }],
       leave_handler := true, free_handler := true } rfl rfl
  rw [h.1]
  rfl

/-- Embeds `guac_client_stop` (client.c:366): unconditionally sets the
state to STOPPING. -/
def guac_client_stop (client : guac_client) : guac_client :=
  { client with state := guac_client_state.GUAC_CLIENT_STOPPING }

/-- Externally visible calls made by `vguac_client_abort`: the
detailed-error log call, the protocol error sent through the broadcast
socket, and the socket flush. -/
inductive AEvent where
  | log_error_call
  | send_error (message : String)
  | flush
deriving DecidableEq

/-- Embeds `vguac_client_abort` (client.c:370): only when the state is
RUNNING, log the detailed error, send the sanitized generic error
message through the broadcast socket, flush, and stop the client;
otherwise do nothing. Returns the updated client and the trace of
calls made. -/
def vguac_client_abort (client : guac_client) : guac_client × List AEvent :=
  if client.state = guac_client_state.GUAC_CLIENT_RUNNING then
    (guac_client_stop client,
     [AEvent.log_error_call, AEvent.send_error "Aborted. See logs.",
      AEvent.flush])
  else (client, [])

/-- Rank of a lifecycle state along Running -> Stopping -> Stopped. -/
def stateRank : guac_client_state → Nat
  | guac_client_state.GUAC_CLIENT_RUNNING => 0
  | guac_client_state.GUAC_CLIENT_STOPPING => 1
  | guac_client_state.GUAC_CLIENT_STOPPED => 2

/-- One application of a state-mutating operation of client.c
(`guac_client_stop` or `vguac_client_abort`), viewed as a transition on
the lifecycle state. -/
inductive StateStep : guac_client_state → guac_client_state → Prop where
  | stop (c : guac_client) : StateStep c.state (guac_client_stop c).state
  | abort (c : guac_client) : StateStep c.state (vguac_client_abort c).1.state

/-- Lifecycle states reachable from the RUNNING state every session is
created in (`guac_client_alloc`) by the operations of client.c. -/
def ReachableState (s : guac_client_state) : Prop :=
  Relation.ReflTransGen StateStep guac_client_state.GUAC_CLIENT_RUNNING s

/-- Any single step targets STOPPING or leaves the state unchanged. -/
theorem stateStep_cases {s t : guac_client_state} (h : StateStep s t) :
    t = guac_client_state.GUAC_CLIENT_STOPPING ∨ t = s := by
  cases h with
  | stop c => left; rfl
  | abort c =>
      by_cases hr : c.state = guac_client_state.GUAC_CLIENT_RUNNING
      · left; simp [vguac_client_abort, hr, guac_client_stop]
      · right; simp [vguac_client_abort, hr]

/-- A reachable state is RUNNING or STOPPING; STOPPED is never assigned
by client.c. -/
theorem reachableState_cases {s : guac_client_state} (h : ReachableState s) :
    s = guac_client_state.GUAC_CLIENT_RUNNING ∨
    s = guac_client_state.GUAC_CLIENT_STOPPING := by
  induction h with
  | refl => left; rfl
  | tail _ hstep ih =>
      rcases stateStep_cases hstep with h1 | h1
      · right; exact h1
      · rwa [h1]

/-- Claim C6: every session starts RUNNING; from any reachable lifecycle
state, every operation of client.c (`guac_client_stop`,
`vguac_client_abort`) moves the state forward along
Running -> Stopping -> Stopped and stays within the reachable states;
`vguac_client_abort` on a RUNNING client logs the detailed error, sends
the sanitized generic message, flushes and transitions to Stopping,
and on a non-RUNNING client changes nothing and makes no calls. -/
theorem C6_state_monotone_abort (s t : guac_client_state)
    (hr : ReachableState s) (hstep : StateStep s t) :
    guac_client_alloc.state = guac_client_state.GUAC_CLIENT_RUNNING ∧
    stateRank s ≤ stateRank t ∧
    ReachableState t ∧
    (∀ c : guac_client,
      c.state = guac_client_state.GUAC_CLIENT_RUNNING →
      vguac_client_abort c =
        ({ c with state := guac_client_state.GUAC_CLIENT_STOPPING },
         [AEvent.log_error_call, AEvent.send_error "Aborted. See logs.",
          AEvent.flush])) ∧
    (∀ c : guac_client,
      c.state ≠ guac_client_state.GUAC_CLIENT_RUNNING →
      vguac_client_abort c = (c, [])) := by
  refine ⟨rfl, ?_, Relation.ReflTransGen.tail hr hstep, ?_, ?_⟩
  · rcases stateStep_cases hstep with h1 | h1
    · rcases reachableState_cases hr with h2 | h2 <;>
        simp [h1, h2, stateRank]
    · simp [h1]
  · intro c hc
    simp [vguac_client_abort, hc, guac_client_stop]
  · intro c hc
    simp [vguac_client_abort, hc]

/-- Claim C6 witness: the stop step from the fresh client's RUNNING state. -/
theorem C6_state_monotone_abort_witness :
    ReachableState guac_client_alloc.state ∧
    StateStep guac_client_alloc.state
      (guac_client_stop guac_client_alloc).state ∧
    (guac_client_alloc.state = guac_client_state.GUAC_CLIENT_RUNNING ∧
     stateRank guac_client_alloc.state ≤
       stateRank (guac_client_stop guac_client_alloc).state ∧
     ReachableState (guac_client_stop guac_client_alloc).state ∧
     (∀ c : guac_client,
       c.state = guac_client_state.GUAC_CLIENT_RUNNING →
       vguac_client_abort c =
         ({ c with state := guac_client_state.GUAC_CLIENT_STOPPING },
          [AEvent.log_error_call, AEvent.send_error "Aborted. See logs.",
           AEvent.flush])) ∧
     (∀ c : guac_client,
       c.state ≠ guac_client_state.GUAC_CLIENT_RUNNING →
       vguac_client_abort c = (c, []))) :=
  ⟨Relation.ReflTransGen.refl, StateStep.stop guac_client_alloc,
   C6_state_monotone_abort guac_client_alloc.state
     (guac_client_stop guac_client_alloc).state
     Relation.ReflTransGen.refl (StateStep.stop guac_client_alloc)⟩

/-- Embeds `__guac_socket_broadcast_write_handler` (client.c:70). The
C function body is `/\x2a STUB \x2a/ return 0;`: it ignores the client
(socket->data), its user list and the buffer, performs no per-user
write, and returns 0. The result pairs the returned byte count with
the list of (uid, byte-count) per-user writes performed. -/
def guac_socket_broadcast_write_handler (_users : List guac_user)
    (_count : Nat) : Int × List (Nat × Nat) :=
  (0, [])

/-- Embeds `__guac_socket_broadcast_read_handler` (client.c:59), also a
stub returning 0 with no per-user operation and no error. -/
def guac_socket_broadcast_read_handler (_users : List guac_user)
    (_count : Nat) : Int × List (Nat × Nat) :=
  (0, [])

/-- Claim C8: counterexample to the broadcast fan-out claim. On a session
with k = 1 attached user, one broadcast write of 5 bytes performs 0
underlying per-user writes, not 1: the write handler is a stub. The
read handler likewise returns 0 (no failure) instead of always
failing. -/
theorem C8_broadcast_write_is_stub :
    (guac_socket_broadcast_write_handler
        [{ uid := 1, leave_handler := false }] 5).2.length = 0 ∧
    (guac_socket_broadcast_write_handler
        [{ uid := 1, leave_handler := false }] 5).2.length ≠ 1 ∧
    guac_socket_broadcast_read_handler
        [{ uid := 1, leave_handler := false }] 5 = (0, []) ∧
    ¬ (guac_socket_broadcast_read_handler
        [{ uid := 1, leave_handler := false }] 5).1 < 0 := by
  decide

/-- Embeds `guac_instruction` (instruction.h) as far as client.c and
connection.c read it: opcode, argument count and argument vector. -/
structure guac_instruction where
  opcode : String
  argv : List String
deriving DecidableEq

/-- Embeds `guac_client_handle_instruction` (client.c:308),
parameterized by the opcode-to-handler table
`__guac_instruction_handler_map` (defined in client-handlers.c, outside
src/): walk the table in order, invoke the handler of the first entry
whose opcode compares equal (`strcmp == 0`) and return its result;
return 0 if no entry matches. -/
def guac_client_handle_instruction
    (table : List (String × (guac_instruction → Int)))
    (instruction : guac_instruction) : Int :=
  match table with
  | [] => 0
  | (opcode, handler) :: rest =>
      if instruction.opcode = opcode then handler instruction
      else guac_client_handle_instruction rest instruction

/-- Claim C9: `guac_client_handle_instruction` returns the result of the
handler of the first table entry whose opcode is an exact string match,
and returns 0, invoking no handler, when no entry matches. -/
theorem C9_handle_instruction_first_match
    (table : List (String × (guac_instruction → Int)))
    (instruction : guac_instruction) :
    guac_client_handle_instruction table instruction =
      match table.find? (fun e => e.1 == instruction.opcode) with
      | some e => e.2 instruction
      | none => 0 := by
  induction table with
  | nil => rfl
  | cons e rest ih =>
      obtain ⟨opcode, handler⟩ := e
      by_cases h : instruction.opcode = opcode
      · simp [guac_client_handle_instruction, List.find?_cons, h]
      · have h' : (opcode == instruction.opcode) = false := by
          simp [Ne.symm h]
        simp [guac_client_handle_instruction, List.find?_cons, h, h', ih]

/-- Embeds `guacd_proc` (proc.h, read by connection.c): process id, the
control-channel socket over which user file descriptors are sent, and
the hosted client's connection id (`proc->client->connection_id`). -/
structure guacd_proc where
  pid : Nat
  fd_socket : Nat
  connection_id : String
deriving DecidableEq

/-- Externally visible calls made by `guacd_add_user`: the fd-transfer
over the process's control channel (`guacd_send_fd`), the error log
call, and a per-user I/O thread start (never emitted — the FIXME block
that would start I/O threads is absent from the code). -/
inductive DAction where
  | send_fd (channel : Nat) (fd : Nat)
  | log_error_call
  | start_thread
deriving DecidableEq

/-- Embeds `guacd_add_user` (connection.c:58), parameterized by the
fd-transfer primitive `guacd_send_fd` (move-fd.c, outside src/).
`user_fd` is the literal constant 0 (the FIXME placeholder for one end
of a socketpair); the inbound connection's socket parameter is never
read. Returns 1 after logging when the fd-send fails, else 0, together
with the trace of calls made. -/
def guacd_add_user (send : Nat → Nat → Bool) (proc : guacd_proc)
    (_socket : Nat) : Int × List DAction :=
  let user_fd : Nat := 0
  if send proc.fd_socket user_fd then
    (0, [DAction.send_fd proc.fd_socket user_fd])
  else
    (1, [DAction.send_fd proc.fd_socket user_fd, DAction.log_error_call])

/-- Externally visible routing actions of `guacd_route_connection`: a
registry lookup (`guacd_proc_map_retrieve`), a backend spawn
(`guacd_create_proc`), registry mutations (`guacd_proc_map_add` /
`guacd_proc_map_remove`), and the attach of the inbound user to a
backend (`guacd_add_user`). -/
inductive RAction where
  | lookup (identifier : String)
  | spawn (protocolName : String)
  | registry_add (identifier : String)
  | registry_remove (identifier : String)
  | attach (channel : Nat)
deriving DecidableEq

/-- Outcome of one `guacd_route_connection` call: a returned int, or
the undefined behaviour of dereferencing a NULL `guacd_proc*`. -/
inductive RouteOutcome where
  | ret (code : Int)
  | null_deref
deriving DecidableEq

/-- Environment a single routed connection runs against: the argv of
the parsed `select` instruction (`none` when
`guac_instruction_expect` fails), the process registry contents, the
spawn primitive `guacd_create_proc` (proc.c, outside src/; `none`
models a NULL return), whether `guacd_send_fd` succeeds, and the
inbound socket. -/
structure RouteEnv where
  select_argv : Option (List String)
  proc_map : List (String × guacd_proc)
  spawn_result : String → Option guacd_proc
  send_fd_ok : Bool
  socket : Nat

/-- Embeds `guacd_proc_map_retrieve` (proc-map.c, outside src/;
modelled from the spec §4.2: `retrieve(id) -> optional handle`, an
idempotent lookup). -/
def guacd_proc_map_retrieve (map : List (String × guacd_proc))
    (identifier : String) : Option guacd_proc :=
  (map.find? (fun e => e.1 == identifier)).map (fun e => e.2)

/-- Embeds `guacd_route_connection` (connection.c:87): read `select`,
require exactly one argument; if the identifier starts with
`GUAC_CLIENT_ID_PREFIX` (the character `$`), retrieve the process from
the registry and return 1 when absent; otherwise spawn a new process
and log its connection id — a dereference of the spawn result made
before any NULL check, hence `null_deref` when the spawn failed. Then
attach the user via `guacd_add_user`; both the success and the failure
branch return 1, and the registry-publication block between them is
compiled out (`#if 0`), so no registry mutation ever occurs. Returns
the outcome and the trace of routing actions. -/
def guacd_route_connection (env : RouteEnv) : RouteOutcome × List RAction :=
  match env.select_argv with
  | none => (RouteOutcome.ret 1, [])
  | some argv =>
    if argv.length ≠ 1 then (RouteOutcome.ret 1, [])
    else
      let identifier := argv.headI
      if identifier.front = '$' then
        match guacd_proc_map_retrieve env.proc_map identifier with
        | none => (RouteOutcome.ret 1, [RAction.lookup identifier])
        | some proc =>
            let r := guacd_add_user (fun _ _ => env.send_fd_ok) proc env.socket
            if r.1 = 0 then
              (RouteOutcome.ret 1,
               [RAction.lookup identifier, RAction.attach proc.fd_socket])
            else
              (RouteOutcome.ret 1,
               [RAction.lookup identifier, RAction.attach proc.fd_socket])
      else
        match env.spawn_result identifier with
        | none => (RouteOutcome.null_deref, [RAction.spawn identifier])
        | some proc =>
            let r := guacd_add_user (fun _ _ => env.send_fd_ok) proc env.socket
            if r.1 = 0 then
              (RouteOutcome.ret 1,
               [RAction.spawn identifier, RAction.attach proc.fd_socket])
            else
              (RouteOutcome.ret 1,
               [RAction.spawn identifier, RAction.attach proc.fd_socket])

/-- Recognizes a registry-lookup action. -/
def isLookup : RAction → Bool
  | RAction.lookup _ => true
  | _ => false

/-- Recognizes a backend-spawn action. -/
def isSpawn : RAction → Bool
  | RAction.spawn _ => true
  | _ => false

/-- Recognizes a registry mutation (add or remove). -/
def isRegistryMutation : RAction → Bool
  | RAction.registry_add _ => true
  | RAction.registry_remove _ => true
  | _ => false

/-- Concrete environment: a join naming the id `$abc`, absent from the
(empty) registry. -/
def envJoinAbsent : RouteEnv :=
  { select_argv := some ["$abc"], proc_map := [],
    spawn_result := fun _ => none, send_fd_ok := true, socket := 0 }

/-- Concrete environment: a create for protocol `vnc` whose spawn and
fd-send both succeed. -/
def envCreateOk : RouteEnv :=
  { select_argv := some ["vnc"], proc_map := [],
    spawn_result := fun _ =>
      some { pid := 10, fd_socket := 3, connection_id := "$abc" },
    send_fd_ok := true, socket := 7 }

/-- Concrete environment: a create for protocol `vnc` whose spawn
fails (`guacd_create_proc` returns NULL). -/
def envSpawnFail : RouteEnv :=
  { select_argv := some ["vnc"], proc_map := [],
    spawn_result := fun _ => none, send_fd_ok := true, socket := 7 }

/-- Characterization of one routed `select` with exactly one argument:
a `$`-identifier takes the registry-lookup path, anything else the
spawn path; no branch ever mutates the registry, both attach outcomes
return 1, and a failed spawn is dereferenced. -/
theorem route_trace (env : RouteEnv) (id : String)
    (h : env.select_argv = some [id]) :
    guacd_route_connection env =
      if id.front = '$' then
        match guacd_proc_map_retrieve env.proc_map id with
        | none => (RouteOutcome.ret 1, [RAction.lookup id])
        | some proc =>
            (RouteOutcome.ret 1,
             [RAction.lookup id, RAction.attach proc.fd_socket])
      else
        match env.spawn_result id with
        | none => (RouteOutcome.null_deref, [RAction.spawn id])
        | some proc =>
            (RouteOutcome.ret 1,
             [RAction.spawn id, RAction.attach proc.fd_socket]) := by
  simp only [guacd_route_connection, h]
  norm_num [List.headI]

/-- Claim C3: for a `select` with exactly one argument, an identifier
whose first character is `$` leads to exactly one registry lookup and
no spawn attempt — and, when the id is absent from the registry, the
router returns 1 having performed only that lookup; any other
identifier leads to exactly one spawn attempt and no lookup; and no
routed connection ever mutates the registry. -/
theorem C3_routing_classification (env : RouteEnv) (id : String)
    (h : env.select_argv = some [id]) :
    (id.front = '$' →
      (guacd_route_connection env).2.countP isLookup = 1 ∧
      (guacd_route_connection env).2.countP isSpawn = 0 ∧
      (guacd_proc_map_retrieve env.proc_map id = none →
        guacd_route_connection env =
          (RouteOutcome.ret 1, [RAction.lookup id]))) ∧
    (¬ id.front = '$' →
      (guacd_route_connection env).2.countP isSpawn = 1 ∧
      (guacd_route_connection env).2.countP isLookup = 0) ∧
    (guacd_route_connection env).2.countP isRegistryMutation = 0 := by
  have ht := route_trace env id h
  by_cases hd : id.front = '$'
  · cases hm : guacd_proc_map_retrieve env.proc_map id with
    | none =>
        have hr : guacd_route_connection env =
            (RouteOutcome.ret 1, [RAction.lookup id]) := by
          rw [ht]; simp [hd, hm]
        simp [hr, hd, isLookup, isSpawn, isRegistryMutation]
    | some proc =>
        have hr : guacd_route_connection env =
            (RouteOutcome.ret 1,
             [RAction.lookup id, RAction.attach proc.fd_socket]) := by
          rw [ht]; simp [hd, hm]
        simp [hr, hd, hm, isLookup, isSpawn, isRegistryMutation]
  · cases hm : env.spawn_result id with
    | none =>
        have hr : guacd_route_connection env =
            (RouteOutcome.null_deref, [RAction.spawn id]) := by
          rw [ht]; simp [hd, hm]
        simp [hr, hd, isLookup, isSpawn, isRegistryMutation]
    | some proc =>
        have hr : guacd_route_connection env =
            (RouteOutcome.ret 1,
             [RAction.spawn id, RAction.attach proc.fd_socket]) := by
          rw [ht]; simp [hd, hm]
        simp [hr, hd, isLookup, isSpawn, isRegistryMutation]

/-- Claim C3 witness: joining the absent id `$abc` against an empty
registry performs exactly the lookup and nothing else. -/
theorem C3_routing_classification_witness :
    envJoinAbsent.select_argv = some ["$abc"] ∧
    ((("$abc" : String).front = '$' →
      (guacd_route_connection envJoinAbsent).2.countP isLookup = 1 ∧
      (guacd_route_connection envJoinAbsent).2.countP isSpawn = 0 ∧
      (guacd_proc_map_retrieve envJoinAbsent.proc_map "$abc" = none →
        guacd_route_connection envJoinAbsent =
          (RouteOutcome.ret 1, [RAction.lookup "$abc"]))) ∧
    (¬ ("$abc" : String).front = '$' →
      (guacd_route_connection envJoinAbsent).2.countP isSpawn = 1 ∧
      (guacd_route_connection envJoinAbsent).2.countP isLookup = 0) ∧
    (guacd_route_connection envJoinAbsent).2.countP isRegistryMutation = 0) :=
  ⟨rfl, C3_routing_classification envJoinAbsent "$abc" rfl⟩

/-- Claim C2: counterexample to the publication claim. A create
(`select` with argument `vnc`) whose spawn and first attach both
succeed adds no entry at all to the process registry: the
`guacd_proc_map_add` call (and the matching teardown on failure) is
compiled out under `#if 0`, so the trace holds one spawn and one
attach and zero registry mutations. -/
theorem C2_create_successful_attach_publishes_nothing :
    (guacd_route_connection envCreateOk).2.countP isRegistryMutation = 0 ∧
    guacd_route_connection envCreateOk =
      (RouteOutcome.ret 1, [RAction.spawn "vnc", RAction.attach 3]) := by
  constructor
  · rfl
  · rfl

/-- Claim C7: counterexample to the spawn-failure-safety claim. When
`guacd_create_proc` returns NULL for a create (`select` with argument
`vnc`), the router dereferences the NULL process handle (the
`proc->client->connection_id` log on connection.c:128 precedes the NULL
check on line 134), so the failure path is undefined behaviour, not a
clean error return. -/
theorem C7_spawn_failure_dereferences_null :
    guacd_route_connection envSpawnFail =
      (RouteOutcome.null_deref, [RAction.spawn "vnc"]) := by
  rfl

/-- Claim C10: `guacd_add_user` always sends the literal file
descriptor 0 over the process's control channel, ignores which inbound
socket was passed in (any two sockets give identical results), returns
0 exactly when the fd-send primitive succeeds (and logs and returns 1
otherwise), and starts no per-user I/O thread. -/
theorem C10_add_user_sends_literal_fd_zero (send : Nat → Nat → Bool)
    (proc : guacd_proc) (socket : Nat) :
    ((guacd_add_user send proc socket).1 = 0 ↔
      send proc.fd_socket 0 = true) ∧
    (guacd_add_user send proc socket).2 =
      DAction.send_fd proc.fd_socket 0 ::
        (if send proc.fd_socket 0 then [] else [DAction.log_error_call]) ∧
    (∀ socket2, guacd_add_user send proc socket2 =
      guacd_add_user send proc socket) ∧
    DAction.start_thread ∉ (guacd_add_user send proc socket).2 := by
  unfold guacd_add_user
  cases h : send proc.fd_socket 0 <;> simp [h]

/-- Concrete one-entry handler table for exercising the dispatch. -/
def sampleTable : List (String × (guac_instruction → Int)) :=
  [("sync", fun _ => 5)]

/-- Concrete instruction matching the sample table's only opcode. -/
def sampleInstruction : guac_instruction :=
  { opcode := "sync", argv := [] }

/-- Claim C9 witness: dispatch on the concrete table returns the
matching handler's result. -/
theorem C9_handle_instruction_first_match_witness :
    guac_client_handle_instruction sampleTable sampleInstruction =
      match sampleTable.find? (fun e => e.1 == sampleInstruction.opcode) with
      | some e => e.2 sampleInstruction
      | none => 0 :=
  C9_handle_instruction_first_match sampleTable sampleInstruction

/-- Concrete process handle for exercising `guacd_add_user`. -/
def sampleProc : guacd_proc :=
  { pid := 1, fd_socket := 5, connection_id := "$id" }

/-- Concrete always-succeeding fd-send primitive. -/
def sampleSend : Nat → Nat → Bool := fun _ _ => true

/-- Claim C10 witness: with an always-succeeding fd-send, the concrete
add-user call returns 0, sends fd 0 on channel 5, and is independent
of the inbound socket. -/
theorem C10_add_user_sends_literal_fd_zero_witness :
    ((guacd_add_user sampleSend sampleProc 9).1 = 0 ↔
      sampleSend sampleProc.fd_socket 0 = true) ∧
    (guacd_add_user sampleSend sampleProc 9).2 =
      DAction.send_fd sampleProc.fd_socket 0 ::
        (if sampleSend sampleProc.fd_socket 0 then []
         else [DAction.log_error_call]) ∧
    (∀ socket2, guacd_add_user sampleSend sampleProc socket2 =
      guacd_add_user sampleSend sampleProc 9) ∧
    DAction.start_thread ∉ (guacd_add_user sampleSend sampleProc 9).2 :=
  C10_add_user_sends_literal_fd_zero sampleSend sampleProc 9
